import Mathlib

/-!
Shallow embedding of `src/server.mjs` (easybusy-mcp-server), an MCP
protocol adapter: six booking-API tools exposed over JSON-RPC, plus a
small HTTP health/readiness surface.  The source file contains two
textually duplicated copies of the whole server; where the copies
differ (the HTTP request handler's method check for the readiness
path) both are embedded, otherwise the common behaviour is embedded
once.
-/

/-- JavaScript/JSON values as the server manipulates them.  Numbers are
modelled as `Int` (every number in the protocol surface is an integer id
or a count); the absent value `undefined` is modelled by `Option.none`
at the use sites. -/
inductive Json where
  | null
  | bool (b : Bool)
  | num (n : Int)
  | str (s : String)
  | arr (elems : List Json)
  | obj (fields : List (String × Json))

/-- Property lookup on the field list of a parsed JSON object.
`JSON.parse` keeps the last of duplicate keys, so lookup prefers the
rightmost binding. -/
def lookupField : List (String × Json) → String → Option Json
  | [], _ => none
  | (k, v) :: rest, key =>
    match lookupField rest key with
    | some w => some w
    | none => if k = key then some v else none

/-- JS property access `o.k`: `none` models `undefined` (non-object
receivers have none of the properties this server reads). -/
def getProp (j : Json) (k : String) : Option Json :=
  match j with
  | .obj fields => lookupField fields k
  | _ => none

def Json.isNull : Json → Bool
  | .null => true
  | _ => false

mutual
/-- JS `String(v)` coercion, as used by `url.searchParams.set` and by
template-literal interpolation. -/
def jsToString : Json → String
  | .null => "null"
  | .bool true => "true"
  | .bool false => "false"
  | .num n => toString n
  | .str s => s
  | .obj _ => "[object Object]"
  | .arr es => jsArrToString es

/-- `Array.prototype.toString`: elements joined by commas, with `null`
rendered as the empty string. -/
def jsArrToString : List Json → String
  | [] => ""
  | [e] => jsArrElem e
  | e :: rest => jsArrElem e ++ "," ++ jsArrToString rest

def jsArrElem : Json → String
  | .null => ""
  | j => jsToString j
end

/-- Template-literal interpolation of a possibly-`undefined` value. -/
def interpOpt : Option Json → String
  | none => "undefined"
  | some v => jsToString v

/-- JS truthiness, as used by `params || {}` and `args || {}`. -/
def truthy : Json → Bool
  | .null => false
  | .bool b => b
  | .num n => n != 0
  | .str s => s != ""
  | .arr _ => true
  | .obj _ => true

/-- JS `v || dflt` where `none` models `undefined`. -/
def jsOr (v : Option Json) (dflt : Json) : Json :=
  match v with
  | some j => if truthy j then j else dflt
  | none => dflt

/-! ## Upstream client (`easybusyFetch`) -/

/-- The single outbound HTTP request an `easybusyFetch` call issues:
method, path (relative to the configured base URL), the query
parameters actually set on the URL, and the JSON body when one is
serialized.  The static API-key / content-type headers are identical on
every request and are not modelled. -/
structure UpstreamRequest where
  method : String
  path : String
  query : List (String × String)
  body : Option Json

/-- An upstream HTTP response as `easybusyFetch` observes it: the
status, the full body text, and the outcome of `JSON.parse` on that
text (`none` models a parse failure; it is only consulted when the text
is non-empty, matching the source's `txt ? JSON.parse(txt) : null`). -/
structure UpstreamResponse where
  status : Nat
  text : String
  parsed : Option Json

/-- `res.ok`: status in the inclusive-exclusive range 200..300. -/
def statusOk (s : Nat) : Bool :=
  decide (200 ≤ s) && decide (s < 300)

/-- Body normalization in `easybusyFetch`: empty text gives `null`,
otherwise the parsed JSON, falling back to the raw text when parsing
fails. -/
def normalizeBody (r : UpstreamResponse) : Json :=
  if r.text = "" then Json.null
  else
    match r.parsed with
    | some j => j
    | none => Json.str r.text

/-- The error message thrown on a non-2xx status.  For the fixed paths
this server requests, `url.pathname` equals the path handed to
`easybusyFetch`. -/
def fetchErrMsg (method pathname : String) (status : Nat) (text : String) : String :=
  "EasyBusy " ++ method ++ " " ++ pathname ++ " failed (" ++ toString status ++ "): " ++ text

/-- The value/exception outcome of `easybusyFetch` once the upstream
response is in hand: `.ok` with the normalized body on a 2xx status,
`.error` with the thrown message otherwise. -/
def easybusyFetchResult (method path : String) (r : UpstreamResponse) : Except String Json :=
  if statusOk r.status then Except.ok (normalizeBody r)
  else Except.error (fetchErrMsg method path r.status r.text)

/-- Query assembly: each entry whose value is neither `undefined`
(`none`) nor `null` is stringified and set on the URL, in order.  The
keys of every call site are distinct, so `searchParams.set` never
overwrites. -/
def buildQuery (q : List (String × Option Json)) : List (String × String) :=
  q.filterMap fun kv =>
    match kv.2 with
    | some v => if v.isNull then none else some (kv.1, jsToString v)
    | none => none

/-! ## Tool registry (`tools`) -/

/-- Descriptor helper: `inputSchema: { type: 'object', properties, required? }`. -/
def inputSchemaJson (props : List (String × Json)) (req : Option (List String)) : Json :=
  Json.obj ([("type", Json.str "object"), ("properties", Json.obj props)] ++
    (match req with
     | some names => [("required", Json.arr (names.map Json.str))]
     | none => []))

def typeStr : Json := Json.obj [("type", Json.str "string")]

def typeInt : Json := Json.obj [("type", Json.str "integer")]

def typeObj : Json := Json.obj [("type", Json.str "object")]

/-- The static `tools` array advertised by `tools/list`. -/
def toolsJson : Json := Json.arr [
  Json.obj [("name", Json.str "easybusy_company_features"),
            ("description", Json.str "GET /v2/company/features"),
            ("inputSchema", inputSchemaJson [] none)],
  Json.obj [("name", Json.str "easybusy_company_languages"),
            ("description", Json.str "GET /v2/company/languages"),
            ("inputSchema", inputSchemaJson [] none)],
  Json.obj [("name", Json.str "easybusy_bookable_services"),
            ("description", Json.str "GET /v2/simple-booking/bookable-services"),
            ("inputSchema", inputSchemaJson [("languageCode", typeStr)] (some ["languageCode"]))],
  Json.obj [("name", Json.str "easybusy_bookable_doctors"),
            ("description", Json.str "GET /v2/simple-booking/bookable-doctors"),
            ("inputSchema", inputSchemaJson [] none)],
  Json.obj [("name", Json.str "easybusy_available_slots"),
            ("description", Json.str "GET /v2/simple-booking/available-slots"),
            ("inputSchema", inputSchemaJson
              [("languageCode", typeStr), ("from", typeStr), ("to", typeStr),
               ("serviceId", typeInt), ("doctorId", typeInt)]
              (some ["languageCode", "from", "to", "serviceId", "doctorId"]))],
  Json.obj [("name", Json.str "easybusy_request_slot"),
            ("description", Json.str "POST /v2/simple-booking/request-slot/{slotId}"),
            ("inputSchema", inputSchemaJson
              [("slotId", typeInt), ("serviceId", typeInt),
               ("message", typeStr), ("patientInfo", typeObj)]
              (some ["slotId", "serviceId", "patientInfo"]))]]

/-! ## Tool dispatcher (`handleToolCall`) -/

/-- Argument lookup `args.k`; `none` models `undefined`. -/
def getArg (args : List (String × Json)) (k : String) : Option Json :=
  lookupField args k

/-- A JSON object field that `JSON.stringify` keeps: present properties
(including explicit `null`) are serialized, `undefined` ones dropped. -/
def optField (k : String) : Option Json → List (String × Json)
  | some v => [(k, v)]
  | none => []

/-- `args.message ?? ''`: nullish coalescing. -/
def messageVal : Option Json → Json
  | some Json.null => Json.str ""
  | some v => v
  | none => Json.str ""

/-- The serialized body of the request-slot POST:
`{ serviceId: args.serviceId, message: args.message ?? '', patientInfo: args.patientInfo }`. -/
def requestSlotBody (args : List (String × Json)) : Json :=
  Json.obj (optField "serviceId" (getArg args "serviceId") ++
    [("message", messageVal (getArg args "message"))] ++
    optField "patientInfo" (getArg args "patientInfo"))

/-- The `switch` of `handleToolCall` on a string tool name: which
upstream request each case issues, or the thrown unknown-tool message. -/
def toolRequestNamed (n : String) (args : List (String × Json)) : Except String UpstreamRequest :=
  if n = "easybusy_company_features" then
    Except.ok ⟨"GET", "/v2/company/features", [], none⟩
  else if n = "easybusy_company_languages" then
    Except.ok ⟨"GET", "/v2/company/languages", [], none⟩
  else if n = "easybusy_bookable_services" then
    Except.ok ⟨"GET", "/v2/simple-booking/bookable-services",
      buildQuery [("languageCode", getArg args "languageCode")], none⟩
  else if n = "easybusy_bookable_doctors" then
    Except.ok ⟨"GET", "/v2/simple-booking/bookable-doctors", [], none⟩
  else if n = "easybusy_available_slots" then
    Except.ok ⟨"GET", "/v2/simple-booking/available-slots",
      buildQuery [("languageCode", getArg args "languageCode"),
                  ("from", getArg args "from"),
                  ("to", getArg args "to"),
                  ("serviceId", getArg args "serviceId"),
                  ("doctorId", getArg args "doctorId")], none⟩
  else if n = "easybusy_request_slot" then
    Except.ok ⟨"POST", "/v2/simple-booking/request-slot/" ++ interpOpt (getArg args "slotId"),
      [], some (requestSlotBody args)⟩
  else Except.error ("Unknown tool: " ++ n)

/-- `handleToolCall`'s dispatch on an arbitrary `name` value: only a
string can match a `case` label; anything else (including `undefined`)
falls through to the `default` throw with the value interpolated. -/
def toolRequest (name : Option Json) (args : List (String × Json)) : Except String UpstreamRequest :=
  match name with
  | some (Json.str n) => toolRequestNamed n args
  | other => Except.error ("Unknown tool: " ++ interpOpt other)

/-! ## WebSocket message handler -/

/-- An inbound channel message: either its text fails `JSON.parse`, or
it parses to a JSON value. -/
inductive Inbound where
  | invalid (raw : String)
  | msg (j : Json)

/-- What one inbound message causes: the envelopes sent back on the
socket (in order) and the upstream requests issued. -/
structure Outcome where
  replies : List Json
  upstream : List UpstreamRequest

/-- `JSON.stringify({ jsonrpc: '2.0', id, result })`; an `undefined` id
(`none`) is dropped by stringification. -/
def resultEnvelope (id : Option Json) (result : Json) : Json :=
  Json.obj ([("jsonrpc", Json.str "2.0")] ++ optField "id" id ++ [("result", result)])

/-- `JSON.stringify({ jsonrpc: '2.0', id, error: { code, message } })`. -/
def errorEnvelope (id : Option Json) (code : Int) (message : String) : Json :=
  Json.obj ([("jsonrpc", Json.str "2.0")] ++ optField "id" id ++
    [("error", Json.obj [("code", Json.num code), ("message", Json.str message)])])

/-- The `tools/list` result: `{ tools, nextCursor: null }`. -/
def toolsListResult : Json :=
  Json.obj [("tools", toolsJson), ("nextCursor", Json.null)]

/-- The `arguments` bag after `args || {}`: property reads only find
anything when the value is an object. -/
def argFields : Json → List (String × Json)
  | .obj fields => fields
  | _ => []

/-- The `tools/call` branch: extract `name`/`arguments` from
`params || {}`, dispatch, and wrap the awaited result or the caught
error (code -32000, message forwarded verbatim).  The second source
copy appends `|| 'Internal MCP error'` to the caught message; the
messages this program throws are never empty, so the copies agree. -/
def toolsCall (id : Option Json) (params : Option Json) (resp : UpstreamResponse) : Outcome :=
  let p := jsOr params (Json.obj [])
  let name := getProp p "name"
  let args := argFields (jsOr (getProp p "arguments") (Json.obj []))
  match toolRequest name args with
  | Except.error e => ⟨[errorEnvelope id (-32000) e], []⟩
  | Except.ok req =>
    match easybusyFetchResult req.method req.path resp with
    | Except.ok r => ⟨[resultEnvelope id r], [req]⟩
    | Except.error e => ⟨[errorEnvelope id (-32000) e], [req]⟩

/-- Method dispatch after destructuring: `tools/list`, `tools/call`, or
the method-not-found envelope (code -32601). -/
def dispatchMethod (id method params : Option Json) (resp : UpstreamResponse) : Outcome :=
  match method with
  | some (Json.str mth) =>
    if mth = "tools/list" then ⟨[resultEnvelope id toolsListResult], []⟩
    else if mth = "tools/call" then toolsCall id params resp
    else ⟨[errorEnvelope id (-32601) "Unknown method"], []⟩
  | _ => ⟨[errorEnvelope id (-32601) "Unknown method"], []⟩

/-- A successfully parsed message.  `const { id, method, params } = msg`
throws a TypeError when `msg` is `null`; that statement sits before the
`try`, so the handler dies with no reply sent and no upstream call. -/
def handleParsed (m : Json) (resp : UpstreamResponse) : Outcome :=
  if m.isNull then ⟨[], []⟩
  else dispatchMethod (getProp m "id") (getProp m "method") (getProp m "params") resp

/-- One inbound channel message, end to end.  `resp` is the upstream
response the one outbound request (if any) would receive. -/
def handleMessage (inb : Inbound) (resp : UpstreamResponse) : Outcome :=
  match inb with
  | .invalid _ => ⟨[errorEnvelope (some Json.null) (-32700) "Invalid JSON"], []⟩
  | .msg m => handleParsed m resp

/-! ## HTTP server handlers -/

structure HttpReq where
  url : String
  method : String

/-- Status plus the serialized JSON body (`none`: `res.end()` with no
body). -/
structure HttpResp where
  status : Nat
  body : Option Json

/-- `{ status: 'ok', uptime: process.uptime() }` with the current
process uptime. -/
def healthBody (uptime : Int) : Json :=
  Json.obj [("status", Json.str "ok"), ("uptime", Json.num uptime)]

/-- `{ status: 'ready', mcp: true }`. -/
def mcpBody : Json :=
  Json.obj [("status", Json.str "ready"), ("mcp", Json.bool true)]

/-- First copy of the HTTP handler (lines 158-172): matches on
`req.url` only, never on the method. -/
def httpHandler1 (uptime : Int) (r : HttpReq) : HttpResp :=
  if r.url = "/health" then ⟨200, some (healthBody uptime)⟩
  else if r.url = "/mcp" then ⟨200, some mcpBody⟩
  else ⟨404, none⟩

/-- Second copy of the HTTP handler (lines 399-416): `/health` by url
only, `/mcp` additionally requires method GET. -/
def httpHandler2 (uptime : Int) (r : HttpReq) : HttpResp :=
  if r.url = "/health" then ⟨200, some (healthBody uptime)⟩
  else if r.url = "/mcp" ∧ r.method = "GET" then ⟨200, some mcpBody⟩
  else ⟨404, none⟩

/-- A `tools/call` request envelope with a string tool name and an
object argument bag. -/
def callMsg (id : Json) (name : String) (args : List (String × Json)) : Json :=
  Json.obj [("jsonrpc", Json.str "2.0"), ("id", id), ("method", Json.str "tools/call"),
    ("params", Json.obj [("name", Json.str name), ("arguments", Json.obj args)])]

/-! ## Helper lemmas -/

/-- A `tools/call` whose dispatch resolves to an upstream request issues
exactly that request, whatever the upstream answers. -/
theorem call_upstream (id : Json) (name : String) (args : List (String × Json))
    (req : UpstreamRequest) (resp : UpstreamResponse)
    (hreq : toolRequest (some (Json.str name)) args = Except.ok req) :
    (handleMessage (Inbound.msg (callMsg id name args)) resp).upstream = [req] := by
  rcases hst : statusOk resp.status
  · simp [handleMessage, handleParsed, callMsg, dispatchMethod, toolsCall, getProp, lookupField,
          Json.isNull, jsOr, truthy, argFields, easybusyFetchResult, hreq, hst]
  · simp [handleMessage, handleParsed, callMsg, dispatchMethod, toolsCall, getProp, lookupField,
          Json.isNull, jsOr, truthy, argFields, easybusyFetchResult, hreq, hst]

/-- The `tools/call` branch always sends exactly one envelope. -/
theorem toolsCall_replies_one (id params : Option Json) (resp : UpstreamResponse) :
    (toolsCall id params resp).replies.length = 1 := by
  simp only [toolsCall]
  split
  · rfl
  · split <;> rfl

/-- Method dispatch always sends exactly one envelope. -/
theorem dispatch_replies_one (id method params : Option Json) (resp : UpstreamResponse) :
    (dispatchMethod id method params resp).replies.length = 1 := by
  rcases method with _ | v
  · rfl
  · rcases v with _ | b | n | s | es | fs
    all_goals first
      | rfl
      | (simp only [dispatchMethod]
         split
         · rfl
         · split
           · exact toolsCall_replies_one _ _ _
           · rfl)

/-- Every parsed message other than JSON `null` gets exactly one reply. -/
theorem parsed_replies_one (m : Json) (resp : UpstreamResponse) (hm : m ≠ Json.null) :
    (handleMessage (Inbound.msg m) resp).replies.length = 1 := by
  have hnull : m.isNull = false := by
    rcases m with _ | _ | _ | _ | _ | _ <;> simp [Json.isNull] at hm ⊢
  simp only [handleMessage, handleParsed, hnull, Bool.false_eq_true, if_false]
  exact dispatch_replies_one _ _ _ _

/-! ## Claims -/

/-- C1: for each of the six registered tool names, a `tools/call` with
its required arguments present issues exactly one upstream request with
the documented method, path, query and body, and (on a 2xx response)
the JSON-RPC result is the parsed upstream body verbatim. -/
theorem C1_six_tools_roundtrip (id : Json) (resp : UpstreamResponse)
    (h : statusOk resp.status = true)
    (lang fro tos : String) (sid did slot : Int) (pinfo : Json) :
    handleMessage (Inbound.msg (callMsg id "easybusy_company_features" [])) resp
      = ⟨[resultEnvelope (some id) (normalizeBody resp)],
         [⟨"GET", "/v2/company/features", [], none⟩]⟩
    ∧ handleMessage (Inbound.msg (callMsg id "easybusy_company_languages" [])) resp
      = ⟨[resultEnvelope (some id) (normalizeBody resp)],
         [⟨"GET", "/v2/company/languages", [], none⟩]⟩
    ∧ handleMessage (Inbound.msg (callMsg id "easybusy_bookable_services"
          [("languageCode", Json.str lang)])) resp
      = ⟨[resultEnvelope (some id) (normalizeBody resp)],
         [⟨"GET", "/v2/simple-booking/bookable-services", [("languageCode", lang)], none⟩]⟩
    ∧ handleMessage (Inbound.msg (callMsg id "easybusy_bookable_doctors" [])) resp
      = ⟨[resultEnvelope (some id) (normalizeBody resp)],
         [⟨"GET", "/v2/simple-booking/bookable-doctors", [], none⟩]⟩
    ∧ handleMessage (Inbound.msg (callMsg id "easybusy_available_slots"
          [("languageCode", Json.str lang), ("from", Json.str fro), ("to", Json.str tos),
           ("serviceId", Json.num sid), ("doctorId", Json.num did)])) resp
      = ⟨[resultEnvelope (some id) (normalizeBody resp)],
         [⟨"GET", "/v2/simple-booking/available-slots",
           [("languageCode", lang), ("from", fro), ("to", tos),
            ("serviceId", toString sid), ("doctorId", toString did)], none⟩]⟩
    ∧ handleMessage (Inbound.msg (callMsg id "easybusy_request_slot"
          [("slotId", Json.num slot), ("serviceId", Json.num sid), ("patientInfo", pinfo)])) resp
      = ⟨[resultEnvelope (some id) (normalizeBody resp)],
         [⟨"POST", "/v2/simple-booking/request-slot/" ++ toString slot, [],
           some (Json.obj [("serviceId", Json.num sid), ("message", Json.str ""),
                           ("patientInfo", pinfo)])⟩]⟩ := by
  refine ⟨?_, ?_, ?_, ?_, ?_, ?_⟩ <;>
    simp [handleMessage, handleParsed, callMsg, dispatchMethod, toolsCall, toolRequest,
          toolRequestNamed, getProp, lookupField, Json.isNull, jsOr, truthy, argFields,
          easybusyFetchResult, h, buildQuery, getArg, jsToString, interpOpt,
          requestSlotBody, optField, messageVal]

/-- Witness for C1 at concrete inputs. -/
theorem C1_six_tools_roundtrip_witness :
    statusOk 200 = true
    ∧ handleMessage (Inbound.msg (callMsg (Json.num 1) "easybusy_company_features" []))
        ⟨200, "", none⟩
      = ⟨[resultEnvelope (some (Json.num 1)) (normalizeBody ⟨200, "", none⟩)],
         [⟨"GET", "/v2/company/features", [], none⟩]⟩ :=
  ⟨rfl, (C1_six_tools_roundtrip (Json.num 1) ⟨200, "", none⟩ rfl "en" "a" "b" 3 4 42
          (Json.obj [])).1⟩

/-- C2: a `tools/call` of `easybusy_request_slot` with `slotId`,
`serviceId` and `patientInfo` present issues a POST to
`/v2/simple-booking/request-slot/slotId` whose body is exactly
`serviceId`, `message`, `patientInfo` in source order, with `message`
the supplied string when present and the empty string when absent —
whatever the upstream response is. -/
theorem C2_request_slot_body (id pinfo : Json) (resp : UpstreamResponse) (slot sid : Int) :
    (handleMessage (Inbound.msg (callMsg id "easybusy_request_slot"
        [("slotId", Json.num slot), ("serviceId", Json.num sid),
         ("patientInfo", pinfo)])) resp).upstream
      = [⟨"POST", "/v2/simple-booking/request-slot/" ++ toString slot, [],
          some (Json.obj [("serviceId", Json.num sid), ("message", Json.str ""),
                          ("patientInfo", pinfo)])⟩]
    ∧ ∀ (msgText : String),
      (handleMessage (Inbound.msg (callMsg id "easybusy_request_slot"
          [("slotId", Json.num slot), ("serviceId", Json.num sid),
           ("message", Json.str msgText), ("patientInfo", pinfo)])) resp).upstream
        = [⟨"POST", "/v2/simple-booking/request-slot/" ++ toString slot, [],
            some (Json.obj [("serviceId", Json.num sid), ("message", Json.str msgText),
                            ("patientInfo", pinfo)])⟩] :=
  ⟨call_upstream _ _ _ _ _ (by simp [toolRequest, toolRequestNamed, getArg, lookupField,
      requestSlotBody, optField, messageVal, interpOpt, jsToString]),
   fun _ => call_upstream _ _ _ _ _ (by simp [toolRequest, toolRequestNamed, getArg, lookupField,
      requestSlotBody, optField, messageVal, interpOpt, jsToString])⟩

/-- Witness for C2 at the spec's example input (slot 42, service 7,
patient `name: A`, message absent). -/
theorem C2_request_slot_body_witness :
    (handleMessage (Inbound.msg (callMsg (Json.num 9) "easybusy_request_slot"
        [("slotId", Json.num 42), ("serviceId", Json.num 7),
         ("patientInfo", Json.obj [("name", Json.str "A")])]))
        ⟨201, "x", some (Json.obj [("bookingId", Json.num 1)])⟩).upstream
      = [⟨"POST", "/v2/simple-booking/request-slot/" ++ toString (42 : Int), [],
          some (Json.obj [("serviceId", Json.num 7), ("message", Json.str ""),
                          ("patientInfo", Json.obj [("name", Json.str "A")])])⟩] :=
  (C2_request_slot_body (Json.num 9) (Json.obj [("name", Json.str "A")])
    ⟨201, "x", some (Json.obj [("bookingId", Json.num 1)])⟩ 42 7).1

/-- C3: a `tools/call` with a tool name outside the six registered ones
issues no upstream request and yields an error envelope of code -32000
whose message contains the unknown name, correlated to the request id. -/
theorem C3_unknown_tool (id : Json) (resp : UpstreamResponse) (name : String)
    (args : List (String × Json))
    (h1 : name ≠ "easybusy_company_features") (h2 : name ≠ "easybusy_company_languages")
    (h3 : name ≠ "easybusy_bookable_services") (h4 : name ≠ "easybusy_bookable_doctors")
    (h5 : name ≠ "easybusy_available_slots") (h6 : name ≠ "easybusy_request_slot") :
    handleMessage (Inbound.msg (callMsg id name args)) resp
      = ⟨[errorEnvelope (some id) (-32000) ("Unknown tool: " ++ name)], []⟩ := by
  simp [handleMessage, handleParsed, callMsg, dispatchMethod, toolsCall, toolRequest,
        toolRequestNamed, getProp, lookupField, Json.isNull, jsOr, truthy, argFields,
        h1, h2, h3, h4, h5, h6]

/-- Witness for C3 with the tool name `bogus_tool`. -/
theorem C3_unknown_tool_witness :
    handleMessage (Inbound.msg (callMsg (Json.num 1) "bogus_tool" [])) ⟨200, "", none⟩
      = ⟨[errorEnvelope (some (Json.num 1)) (-32000) ("Unknown tool: " ++ "bogus_tool")], []⟩ :=
  C3_unknown_tool (Json.num 1) ⟨200, "", none⟩ "bogus_tool" []
    (by decide) (by decide) (by decide) (by decide) (by decide) (by decide)

/-- C4: a non-2xx upstream status makes `easybusyFetch` throw a message
built from the method, path, status and raw body text, and the
`tools/call` reply is an error envelope of code -32000 forwarding that
message verbatim, correlated to the request id (the one upstream
request was still issued). -/
theorem C4_upstream_failure (id : Json) (resp : UpstreamResponse) (name : String)
    (args : List (String × Json)) (req : UpstreamRequest)
    (hreq : toolRequest (some (Json.str name)) args = Except.ok req)
    (h : statusOk resp.status = false) :
    easybusyFetchResult req.method req.path resp
      = Except.error (fetchErrMsg req.method req.path resp.status resp.text)
    ∧ handleMessage (Inbound.msg (callMsg id name args)) resp
      = ⟨[errorEnvelope (some id) (-32000)
            (fetchErrMsg req.method req.path resp.status resp.text)], [req]⟩ := by
  constructor
  · simp [easybusyFetchResult, h]
  · simp [handleMessage, handleParsed, callMsg, dispatchMethod, toolsCall, getProp, lookupField,
          Json.isNull, jsOr, truthy, argFields, easybusyFetchResult, hreq, h]

/-- Witness for C4: upstream 500 with body `server error` on the
company-features call. -/
theorem C4_upstream_failure_witness :
    easybusyFetchResult "GET" "/v2/company/features" ⟨500, "server error", none⟩
      = Except.error (fetchErrMsg "GET" "/v2/company/features" 500 "server error")
    ∧ handleMessage (Inbound.msg (callMsg (Json.num 1) "easybusy_company_features" []))
        ⟨500, "server error", none⟩
      = ⟨[errorEnvelope (some (Json.num 1)) (-32000)
            (fetchErrMsg "GET" "/v2/company/features" 500 "server error")],
         [⟨"GET", "/v2/company/features", [], none⟩]⟩ :=
  C4_upstream_failure (Json.num 1) ⟨500, "server error", none⟩ "easybusy_company_features" []
    ⟨"GET", "/v2/company/features", [], none⟩ rfl rfl

/-- C5: an inbound message that fails JSON parsing yields exactly one
reply — a parse-error envelope, code -32700, id `null` — and no
upstream request, whatever the message content. -/
theorem C5_parse_error (raw : String) (resp : UpstreamResponse) :
    handleMessage (Inbound.invalid raw) resp
      = ⟨[errorEnvelope (some Json.null) (-32700) "Invalid JSON"], []⟩ := rfl

/-- Witness for C5 on a concrete non-JSON message. -/
theorem C5_parse_error_witness :
    handleMessage (Inbound.invalid "not json at all") ⟨200, "", none⟩
      = ⟨[errorEnvelope (some Json.null) (-32700) "Invalid JSON"], []⟩ :=
  C5_parse_error "not json at all" ⟨200, "", none⟩

/-- C6: a request whose method is neither `tools/list` nor `tools/call`
yields a method-not-found envelope, code -32601, echoing the request's
id, with no upstream request. -/
theorem C6_unknown_method (id params : Json) (resp : UpstreamResponse) (mth : String)
    (h1 : mth ≠ "tools/list") (h2 : mth ≠ "tools/call") :
    handleMessage (Inbound.msg (Json.obj [("jsonrpc", Json.str "2.0"), ("id", id),
        ("method", Json.str mth), ("params", params)])) resp
      = ⟨[errorEnvelope (some id) (-32601) "Unknown method"], []⟩ := by
  simp [handleMessage, handleParsed, dispatchMethod, getProp, lookupField, Json.isNull, h1, h2]

/-- Witness for C6 with the method name `ping`. -/
theorem C6_unknown_method_witness :
    handleMessage (Inbound.msg (Json.obj [("jsonrpc", Json.str "2.0"), ("id", Json.num 7),
        ("method", Json.str "ping"), ("params", Json.null)])) ⟨200, "", none⟩
      = ⟨[errorEnvelope (some (Json.num 7)) (-32601) "Unknown method"], []⟩ :=
  C6_unknown_method (Json.num 7) Json.null ⟨200, "", none⟩ "ping" (by decide) (by decide)

/-- C7 counterexample: a POST to `/health` is answered 200 by both
handler copies (and a POST to `/mcp` is answered 200 by the first),
not 404 as claimed for non-GET methods. -/
theorem C7_http_counterexample :
    (httpHandler1 0 ⟨"/health", "POST"⟩).status = 200
    ∧ (httpHandler2 0 ⟨"/health", "POST"⟩).status = 200
    ∧ (httpHandler1 0 ⟨"/mcp", "POST"⟩).status = 200 :=
  ⟨rfl, rfl, rfl⟩

/-- C7 (amended): `/health` answers 200 with the ok/uptime body for
every method (GET included) in both handler copies; the first copy
answers 200 with the ready body on `/mcp` for every method (GET
included) while the second does so exactly for GET and answers 404
otherwise; every other path answers 404 with no body in both copies. -/
theorem C7_http_amended (u : Int) (m : String) (r : HttpReq) :
    httpHandler1 u ⟨"/health", m⟩ = ⟨200, some (healthBody u)⟩
    ∧ httpHandler2 u ⟨"/health", m⟩ = ⟨200, some (healthBody u)⟩
    ∧ httpHandler1 u ⟨"/mcp", m⟩ = ⟨200, some mcpBody⟩
    ∧ httpHandler2 u ⟨"/mcp", "GET"⟩ = ⟨200, some mcpBody⟩
    ∧ (m ≠ "GET" → httpHandler2 u ⟨"/mcp", m⟩ = ⟨404, none⟩)
    ∧ (r.url ≠ "/health" → r.url ≠ "/mcp" →
        httpHandler1 u r = ⟨404, none⟩ ∧ httpHandler2 u r = ⟨404, none⟩) := by
  refine ⟨?_, ?_, ?_, ?_, fun hm => ?_, fun h1 h2 => ⟨?_, ?_⟩⟩ <;>
    simp_all [httpHandler1, httpHandler2]

/-- Witness for C7 (amended), covering both the GET cases and the
404 cases. -/
theorem C7_http_amended_witness :
    httpHandler1 0 ⟨"/health", "POST"⟩ = ⟨200, some (healthBody 0)⟩
    ∧ httpHandler1 0 ⟨"/health", "GET"⟩ = ⟨200, some (healthBody 0)⟩
    ∧ httpHandler2 0 ⟨"/health", "GET"⟩ = ⟨200, some (healthBody 0)⟩
    ∧ httpHandler1 0 ⟨"/mcp", "GET"⟩ = ⟨200, some mcpBody⟩
    ∧ httpHandler2 0 ⟨"/mcp", "GET"⟩ = ⟨200, some mcpBody⟩
    ∧ httpHandler2 0 ⟨"/mcp", "POST"⟩ = ⟨404, none⟩
    ∧ httpHandler1 0 ⟨"/nope", "GET"⟩ = ⟨404, none⟩
    ∧ httpHandler2 0 ⟨"/nope", "GET"⟩ = ⟨404, none⟩ :=
  ⟨(C7_http_amended 0 "POST" ⟨"/nope", "GET"⟩).1,
   (C7_http_amended 0 "GET" ⟨"/nope", "GET"⟩).1,
   (C7_http_amended 0 "GET" ⟨"/nope", "GET"⟩).2.1,
   (C7_http_amended 0 "GET" ⟨"/nope", "GET"⟩).2.2.1,
   (C7_http_amended 0 "GET" ⟨"/nope", "GET"⟩).2.2.2.1,
   (C7_http_amended 0 "POST" ⟨"/nope", "GET"⟩).2.2.2.2.1 (by decide),
   ((C7_http_amended 0 "POST" ⟨"/nope", "GET"⟩).2.2.2.2.2 (by decide) (by decide)).1,
   ((C7_http_amended 0 "POST" ⟨"/nope", "GET"⟩).2.2.2.2.2 (by decide) (by decide)).2⟩

/-- C8: on any 2xx status `easybusyFetch` returns (never throws) the
normalized body, and when the body text is non-empty and fails JSON
parsing the returned value is the raw text itself. -/
theorem C8_success_never_throws (method path : String) (resp : UpstreamResponse)
    (h : statusOk resp.status = true) :
    easybusyFetchResult method path resp = Except.ok (normalizeBody resp)
    ∧ (resp.parsed = none → resp.text ≠ "" → normalizeBody resp = Json.str resp.text) := by
  constructor
  · simp [easybusyFetchResult, h]
  · intro hp ht
    simp [normalizeBody, hp, ht]

/-- Witness for C8: a 200 response whose body fails to parse. -/
theorem C8_success_never_throws_witness :
    statusOk 200 = true
    ∧ easybusyFetchResult "GET" "/v2/company/features" ⟨200, "not-json", none⟩
        = Except.ok (normalizeBody ⟨200, "not-json", none⟩)
    ∧ normalizeBody ⟨200, "not-json", none⟩ = Json.str "not-json" :=
  ⟨rfl, (C8_success_never_throws "GET" "/v2/company/features" ⟨200, "not-json", none⟩ rfl).1,
   (C8_success_never_throws "GET" "/v2/company/features" ⟨200, "not-json", none⟩ rfl).2
     rfl (by decide)⟩

/-- C9: the dispatcher never checks the advertised required fields:
with an empty argument bag the three tools with required parameters
still dispatch an upstream request — query values are simply omitted,
and the missing `slotId` is interpolated into the request-slot path as
the text `undefined`. -/
theorem C9_no_validation (id : Json) (resp : UpstreamResponse) :
    toolRequest (some (Json.str "easybusy_bookable_services")) []
      = Except.ok ⟨"GET", "/v2/simple-booking/bookable-services", [], none⟩
    ∧ toolRequest (some (Json.str "easybusy_available_slots")) []
      = Except.ok ⟨"GET", "/v2/simple-booking/available-slots", [], none⟩
    ∧ toolRequest (some (Json.str "easybusy_request_slot")) []
      = Except.ok ⟨"POST", "/v2/simple-booking/request-slot/" ++ "undefined", [],
          some (Json.obj [("message", Json.str "")])⟩
    ∧ "/v2/simple-booking/request-slot/" ++ "undefined"
        = "/v2/simple-booking/request-slot/undefined"
    ∧ (handleMessage (Inbound.msg (callMsg id "easybusy_bookable_services" [])) resp).upstream
      = [⟨"GET", "/v2/simple-booking/bookable-services", [], none⟩]
    ∧ (handleMessage (Inbound.msg (callMsg id "easybusy_available_slots" [])) resp).upstream
      = [⟨"GET", "/v2/simple-booking/available-slots", [], none⟩]
    ∧ (handleMessage (Inbound.msg (callMsg id "easybusy_request_slot" [])) resp).upstream
      = [⟨"POST", "/v2/simple-booking/request-slot/" ++ "undefined", [],
          some (Json.obj [("message", Json.str "")])⟩] :=
  ⟨rfl, rfl, rfl, by decide,
   call_upstream _ _ _ _ _ rfl, call_upstream _ _ _ _ _ rfl, call_upstream _ _ _ _ _ rfl⟩

/-- Witness for C9 at a concrete id and response. -/
theorem C9_no_validation_witness :
    (handleMessage (Inbound.msg (callMsg (Json.num 3) "easybusy_request_slot" []))
        ⟨200, "", none⟩).upstream
      = [⟨"POST", "/v2/simple-booking/request-slot/" ++ "undefined", [],
          some (Json.obj [("message", Json.str "")])⟩] :=
  (C9_no_validation (Json.num 3) ⟨200, "", none⟩).2.2.2.2.2.2

/-- The id stringified into a result envelope is the one the handler
was given. -/
theorem resultEnvelope_id (id : Option Json) (r : Json) :
    getProp (resultEnvelope id r) "id" = id := by
  cases id <;> rfl

/-- The id stringified into an error envelope is the one the handler
was given. -/
theorem errorEnvelope_id (id : Option Json) (code : Int) (msg : String) :
    getProp (errorEnvelope id code msg) "id" = id := by
  cases id <;> rfl

/-- Every envelope the `tools/call` branch sends carries the request's
id. -/
theorem toolsCall_reply_id (id params : Option Json) (resp : UpstreamResponse) :
    ∀ e ∈ (toolsCall id params resp).replies, getProp e "id" = id := by
  simp only [toolsCall]
  split
  · simp only [List.mem_singleton]
    rintro e rfl
    exact errorEnvelope_id _ _ _
  · split <;> simp only [List.mem_singleton] <;> rintro e rfl
    · exact resultEnvelope_id _ _
    · exact errorEnvelope_id _ _ _

/-- Every envelope method dispatch sends carries the request's id. -/
theorem dispatch_reply_id (id method params : Option Json) (resp : UpstreamResponse) :
    ∀ e ∈ (dispatchMethod id method params resp).replies, getProp e "id" = id := by
  have generic : ∀ e ∈ [errorEnvelope id (-32601) "Unknown method"], getProp e "id" = id := by
    simp only [List.mem_singleton]
    rintro e rfl
    exact errorEnvelope_id _ _ _
  rcases method with _ | v
  · exact generic
  · rcases v with _ | b | n | s | es | fs
    case str =>
      simp only [dispatchMethod]
      split
      · simp only [List.mem_singleton]
        rintro e rfl
        exact resultEnvelope_id _ _
      · split
        · exact toolsCall_reply_id _ _ _
        · exact generic
    all_goals exact generic

/-- Every envelope sent for a parsed message echoes that message's id
property. -/
theorem parsed_reply_id (m : Json) (resp : UpstreamResponse) :
    ∀ e ∈ (handleMessage (Inbound.msg m) resp).replies, getProp e "id" = getProp m "id" := by
  by_cases hm : m.isNull = true
  · rcases m with _ | _ | _ | _ | _ | _ <;> simp_all [handleMessage, handleParsed, Json.isNull]
  · simp only [handleMessage, handleParsed, hm, if_false]
    exact dispatch_reply_id _ _ _ _

/-- C10 counterexample: the message whose content is the JSON literal
`null` parses successfully, then `const { id, method, params } = msg`
throws before the `try` block, so no reply is sent at all — zero
replies, not exactly one. -/
theorem C10_null_message_no_reply :
    handleMessage (Inbound.msg Json.null) ⟨200, "", none⟩ = ⟨[], []⟩ := rfl

/-- C10 (amended): the server never sends more than one reply per
inbound message and never sends unsolicited messages; every message
except the JSON literal `null` gets exactly one reply (on `null` the
handler dies in destructuring outside the try/catch and sends none);
and every reply sent is correlated to that request's id — the parsed
message's id property, or `null` when the message could not be
parsed. -/
theorem C10_one_reply_amended (inb : Inbound) (resp : UpstreamResponse) :
    (handleMessage inb resp).replies.length ≤ 1
    ∧ (inb ≠ Inbound.msg Json.null → (handleMessage inb resp).replies.length = 1)
    ∧ (∀ e ∈ (handleMessage inb resp).replies,
        getProp e "id" = match inb with
          | Inbound.invalid _ => some Json.null
          | Inbound.msg m => getProp m "id") := by
  refine ⟨?_, ?_, ?_⟩
  · rcases inb with r | m
    · simp [handleMessage]
    · by_cases hm : m = Json.null
      · subst hm
        simp [handleMessage, handleParsed, Json.isNull]
      · rw [parsed_replies_one m resp hm]
  · intro hne
    rcases inb with r | m
    · rfl
    · exact parsed_replies_one m resp (fun h => hne (by rw [h]))
  · rcases inb with r | m
    · simp only [handleMessage, List.mem_singleton]
      rintro e rfl
      exact errorEnvelope_id _ _ _
    · exact parsed_reply_id m resp

/-- Witness for C10 (amended): a malformed message gets exactly one
reply, and that reply carries the null id. -/
theorem C10_one_reply_amended_witness :
    (handleMessage (Inbound.invalid "oops") ⟨200, "", none⟩).replies.length = 1
    ∧ getProp (errorEnvelope (some Json.null) (-32700) "Invalid JSON") "id" = some Json.null :=
  ⟨(C10_one_reply_amended (Inbound.invalid "oops") ⟨200, "", none⟩).2.1 (fun h => nomatch h),
   (C10_one_reply_amended (Inbound.invalid "oops") ⟨200, "", none⟩).2.2
     (errorEnvelope (some Json.null) (-32700) "Invalid JSON") (List.mem_singleton.mpr rfl)⟩
